import Mathlib

/-!
Shallow embedding of the crypto-exchange bot's payment-reconciliation core:
the transaction data model (`src/services/transactionService.ts`), the IPN
webhook ingestion path (`src/services/ipnService.ts`,
`src/services/webhookService.ts`) and the NOWPayments polling loop
(the `DepositChecker` class).  JavaScript numbers that only ever hold
integral values are modelled as `Int`/`Nat`; JS string truthiness is
modelled by comparison with the empty string; the external HMAC-SHA256
primitive is an explicit function parameter; `prisma` calls become pure
operations on an explicit list-of-records store; timestamps are a `now`
parameter.
-/

namespace Cryptobot

/-- The `TransactionStatus` string constants of `transactionService.ts`. -/
inductive TransactionStatus where
  | PENDING
  | PROCESSING
  | CONFIRMING
  | CONFIRMED
  | COMPLETED
  | CANCELLED
  | FAILED
  | REFUNDED
deriving DecidableEq, Repr

open TransactionStatus

/-- The fields of the `Transaction` record that the reconciliation paths
read or write.  `userTelegramId` stands for `transaction.user.telegramId`
(the `user` relation is required in the schema); the empty string models a
JS-falsy value. -/
structure Transaction where
  id : String
  status : TransactionStatus
  confirmations : Nat
  requiredConfirmations : Nat
  amount : Int
  paymentId : Option String
  txHash : Option String
  fromAddress : Option String
  completedAt : Option Nat
  userTelegramId : String
  cryptocurrency : String
deriving DecidableEq, Repr

/-- The `IPNPayload` interface of `ipnService.ts` (fields the processing
logic uses; optional JS fields are `Option`). -/
structure IPNPayload where
  payment_id : Int
  payment_status : String
  pay_address : String
  price_amount : Int
  price_currency : String
  pay_amount : Int
  actually_paid : Option Int
  pay_currency : String
  order_id : String
  order_description : String
  purchase_id : Int
  created_at : String
  updated_at : String
  outcome_amount : Option Int
  outcome_currency : Option String
deriving DecidableEq, Repr

/-- The fields of the NOWPayments `getPaymentStatus` response that the
polling `DepositChecker.checkTransaction` uses. -/
structure PaymentStatus where
  payment_status : String
  pay_amount : Int
  amount_received : Option Int
deriving DecidableEq, Repr

/-- The notification side effects sent via `notificationService`; one
constructor per distinct send site, carrying the data interpolated into the
message. -/
inductive Notif where
  | userConfirming (telegramId : String) (payAmount : Int) (payCurrency : String)
  | userConfirmed (telegramId : String) (payAmount : Int) (payCurrency : String)
  | adminDepositConfirmedIPN (transactionId : String) (payAmount : Int)
      (payCurrency : String) (priceAmount : Int)
  | userFailedOrCancelled (telegramId : String) (transactionId : String)
  | userRefunded (telegramId : String) (transactionId : String)
  | userDepositConfirmedPoll (telegramId : String) (transactionId : String)
  | adminConfirmedDepositPoll (transactionId : String)
  | userDepositDetectedPoll (telegramId : String) (payAmount : Int)
      (cryptocurrency : String)
deriving DecidableEq, Repr

/-- The transaction store: the `transaction` table, as a list of records
(primary key `id`). -/
abbrev Store := List Transaction

/-- `prisma.transaction.findUnique({ where: { id } })`. -/
def getById (store : Store) (id : String) : Option Transaction :=
  store.find? (fun t => t.id = id)

/-- `prisma.transaction.update({ where: { id }, data })`: rewrite the
record(s) with the given primary key through `f`. -/
def storeUpdate (store : Store) (id : String) (f : Transaction → Transaction) : Store :=
  store.map (fun t => if t.id = id then f t else t)

/-- The `STATUS_MAP` literal of `ipnService.ts`, mapping NOWPayments IPN
status strings to internal statuses; an absent key is `none`. -/
def STATUS_MAP (s : String) : Option TransactionStatus :=
  if s = "waiting" then some PENDING
  else if s = "confirming" then some CONFIRMING
  else if s = "confirmed" then some CONFIRMED
  else if s = "sending" then some PROCESSING
  else if s = "partially_paid" then some CONFIRMING
  else if s = "finished" then some COMPLETED
  else if s = "failed" then some FAILED
  else if s = "refunded" then some REFUNDED
  else if s = "expired" then some CANCELLED
  else none

/-- `createMessageString`: `fields.join(':')` with `x || ''` on the two
optional trailing fields (`0` and `none` are both JS-falsy). -/
def createMessageString (p : IPNPayload) : String :=
  String.intercalate ":"
    [toString p.payment_id, p.payment_status, p.pay_address,
     toString p.price_amount, p.price_currency, toString p.pay_amount,
     p.pay_currency, p.order_id, p.order_description,
     toString p.purchase_id, p.created_at, p.updated_at,
     (match p.outcome_amount with
      | some a => if a = 0 then "" else toString a
      | none => ""),
     (match p.outcome_currency with
      | some c => c
      | none => "")]

/-- `IPNService.verifySignature`: with an empty (unconfigured) secret it
returns `true`; otherwise it compares the signature with the HMAC-SHA256
hex digest of the message (the `timingSafeEqual` length mismatch throws and
is caught, returning `false`, so the whole check is string equality). -/
def verifySignature (hmacHex : String → String → String) (ipnSecret : String)
    (payload : IPNPayload) (signature : String) : Bool :=
  if ipnSecret = "" then true
  else signature = hmacHex ipnSecret (createMessageString payload)

/-- The signature gate at the top of `processIPN`:
`if (signature && !this.verifySignature(payload, signature)) return false`.
A missing or empty (JS-falsy) signature header skips verification
entirely. -/
def sigPass (hmacHex : String → String → String) (ipnSecret : String)
    (payload : IPNPayload) (signature : Option String) : Bool :=
  match signature with
  | none => true
  | some sig => if sig = "" then true else verifySignature hmacHex ipnSecret payload sig

/-- The shape of the `updateData` object both reconciliation paths
assemble before the store write: the new status, optionally the
actually-received amount, optionally a confirmation count. -/
structure UpdateData where
  status : TransactionStatus
  amount : Option Int
  confirmations : Option Nat
deriving DecidableEq, Repr

/-- The `updateData` built by `processIPN` from the payload and the loaded
transaction: `amount` when `actually_paid` is truthy and positive, and the
confirmation heuristic keyed on the raw gateway status. -/
def buildIPNUpdateData (payload : IPNPayload) (transaction : Transaction)
    (newStatus : TransactionStatus) : UpdateData :=
  { status := newStatus,
    amount := match payload.actually_paid with
              | some a => if 0 < a then some a else none
              | none => none,
    confirmations :=
      if payload.payment_status = "confirmed" then
        some transaction.requiredConfirmations
      else if payload.payment_status = "confirming" then
        some (max 1 (transaction.requiredConfirmations / 2))
      else none }

/-- Apply an `updateData` patch to a stored record (the plain
`prisma.transaction.update` write). -/
def applyUpdateFields (d : UpdateData) (t : Transaction) : Transaction :=
  let t1 := { t with status := d.status }
  let t2 := match d.amount with
            | some a => { t1 with amount := a }
            | none => t1
  match d.confirmations with
  | some c => { t2 with confirmations := c }
  | none => t2

/-- `TransactionService.updateStatus`: apply the patch and additionally
stamp `completedAt` when the status written is `COMPLETED`. -/
def updateStatusApply (now : Nat) (d : UpdateData) (t : Transaction) : Transaction :=
  let t1 := applyUpdateFields d t
  if d.status = COMPLETED then { t1 with completedAt := some now } else t1

/-- `handleStatusNotification`: the per-status notification switch, guarded
by `if (!transaction.user?.telegramId) return`. -/
def handleStatusNotification (txn : Transaction) (status : TransactionStatus)
    (payload : IPNPayload) : List Notif :=
  if txn.userTelegramId = "" then []
  else
    match status with
    | CONFIRMING =>
        [Notif.userConfirming txn.userTelegramId payload.pay_amount payload.pay_currency]
    | CONFIRMED =>
        [Notif.userConfirmed txn.userTelegramId payload.pay_amount payload.pay_currency,
         Notif.adminDepositConfirmedIPN txn.id payload.pay_amount payload.pay_currency
           payload.price_amount]
    | FAILED => [Notif.userFailedOrCancelled txn.userTelegramId txn.id]
    | CANCELLED => [Notif.userFailedOrCancelled txn.userTelegramId txn.id]
    | REFUNDED => [Notif.userRefunded txn.userTelegramId txn.id]
    | _ => []

/-- The outcome of one `processIPN` call: its boolean return value, the
store afterwards, and the notifications sent. -/
structure IPNResult where
  ok : Bool
  store : Store
  notifs : List Notif
deriving DecidableEq, Repr

/-- `IPNService.processIPN`: signature gate, `order_id` presence check,
transaction lookup, status mapping, then the unconditional update and the
status-keyed notifications. -/
def processIPN (hmacHex : String → String → String) (ipnSecret : String)
    (now : Nat) (store : Store) (payload : IPNPayload)
    (signature : Option String) : IPNResult :=
  if sigPass hmacHex ipnSecret payload signature then
    if payload.order_id = "" then ⟨false, store, []⟩
    else
      match getById store payload.order_id with
      | none => ⟨false, store, []⟩
      | some transaction =>
        match STATUS_MAP payload.payment_status with
        | none => ⟨false, store, []⟩
        | some newStatus =>
          ⟨true,
           storeUpdate store payload.order_id
             (updateStatusApply now (buildIPNUpdateData payload transaction newStatus)),
           handleStatusNotification transaction newStatus payload⟩
  else ⟨false, store, []⟩

/-- The `statusMap` literal inside the NOWPayments polling
`DepositChecker.checkTransaction`; textually the same table as
`STATUS_MAP` in `ipnService.ts`. -/
def statusMap (s : String) : Option TransactionStatus :=
  if s = "waiting" then some PENDING
  else if s = "confirming" then some CONFIRMING
  else if s = "confirmed" then some CONFIRMED
  else if s = "sending" then some PROCESSING
  else if s = "partially_paid" then some CONFIRMING
  else if s = "finished" then some COMPLETED
  else if s = "failed" then some FAILED
  else if s = "refunded" then some REFUNDED
  else if s = "expired" then some CANCELLED
  else none

/-- The `updateData` built by the polling `checkTransaction` from the
gateway response and the transaction snapshot: `amount` when
`amount_received` is truthy and positive, and the same confirmation
heuristic as the webhook path.  Unlike the webhook path the write goes
through `prisma.transaction.update` directly, not `updateStatus`, so
`completedAt` is never stamped here. -/
def buildPollUpdateData (payment : PaymentStatus) (tx : Transaction)
    (newStatus : TransactionStatus) : UpdateData :=
  { status := newStatus,
    amount := match payment.amount_received with
              | some a => if 0 < a then some a else none
              | none => none,
    confirmations :=
      if payment.payment_status = "confirmed" then
        some tx.requiredConfirmations
      else if payment.payment_status = "confirming" then
        some (max 1 (tx.requiredConfirmations / 2))
      else none }

/-- The polling `DepositChecker.checkTransaction` for one transaction
snapshot `tx`: skip when `paymentId` is falsy, fetch the gateway status
(`payments` is the gateway oracle keyed by payment id; `none` models a
failed fetch), map it, and only when the mapped status differs from the
snapshot's status update the record and send the status-dependent
notifications. -/
def checkTransaction (payments : String → Option PaymentStatus)
    (store : Store) (tx : Transaction) : Store × List Notif :=
  match tx.paymentId with
  | none => (store, [])
  | some pid =>
    if pid = "" then (store, [])
    else
      match payments pid with
      | none => (store, [])
      | some payment =>
        match statusMap payment.payment_status with
        | none => (store, [])
        | some newStatus =>
          if newStatus = tx.status then (store, [])
          else
            let store1 := storeUpdate store tx.id
              (applyUpdateFields (buildPollUpdateData payment tx newStatus))
            let notifs :=
              if newStatus = CONFIRMED then
                [Notif.userDepositConfirmedPoll tx.userTelegramId tx.id,
                 Notif.adminConfirmedDepositPoll tx.id]
              else if newStatus = CONFIRMING ∧ tx.status = PENDING then
                [Notif.userDepositDetectedPoll tx.userTelegramId payment.pay_amount
                   tx.cryptocurrency]
              else []
            (store1, notifs)

/-- One step of the polling loop body: run `checkTransaction` on the next
snapshot and accumulate its notifications. -/
def pollStep (payments : String → Option PaymentStatus)
    (acc : Store × List Notif) (tx : Transaction) : Store × List Notif :=
  let r := checkTransaction payments acc.1 tx
  (r.1, acc.2 ++ r.2)

/-- The polling `DepositChecker.checkDeposits` tick: enumerate the
transactions whose status is `PENDING` or `CONFIRMING` and whose
`paymentId` is not null, then run `checkTransaction` on each snapshot in
order. -/
def checkDeposits (payments : String → Option PaymentStatus)
    (store : Store) : Store × List Notif :=
  let pendingTransactions := store.filter
    (fun t => (decide (t.status = PENDING) || decide (t.status = CONFIRMING))
      && t.paymentId.isSome)
  pendingTransactions.foldl (pollStep payments) (store, [])

/-- `TransactionService.updateBlockchainData`: write the reported tx hash,
sender address and confirmation count verbatim and force the status to
`CONFIRMING`. -/
def updateBlockchainData (store : Store) (id : String)
    (txHash fromAddress : String) (confirmations : Nat) : Store :=
  storeUpdate store id (fun t =>
    { t with txHash := some txHash, fromAddress := some fromAddress,
             confirmations := confirmations, status := CONFIRMING })

/-- The outcome of parsing a webhook request body (`parseBody` plus reading
the `x-nowpayments-sig` header): a payload with an optional signature
header, or a thrown parse error. -/
inductive ParseOutcome where
  | ok (payload : IPNPayload) (signature : Option String)
  | err
deriving DecidableEq, Repr

/-- The HTTP response of `WebhookService.handleWebhook` together with the
resulting store and notifications. -/
structure WebhookResult where
  statusCode : Nat
  body : String
  store : Store
  notifs : List Notif
deriving DecidableEq, Repr

/-- `WebhookService.handleWebhook`: 403 when IPN is disabled, 405 for
non-POST, 500 when parsing throws, and otherwise 200 regardless of the
`processIPN` outcome (the code comments: return 200 even on processing
error to prevent the gateway from retrying). -/
def handleWebhook (ipnEnabled : Bool) (hmacHex : String → String → String)
    (ipnSecret : String) (now : Nat) (store : Store) (method : String)
    (parsed : ParseOutcome) : WebhookResult :=
  if ipnEnabled = false then ⟨403, "IPN disabled", store, []⟩
  else if method ≠ "POST" then ⟨405, "Method not allowed", store, []⟩
  else
    match parsed with
    | ParseOutcome.err => ⟨500, "Internal server error", store, []⟩
    | ParseOutcome.ok payload signature =>
      let r := processIPN hmacHex ipnSecret now store payload signature
      if r.ok then ⟨200, "OK", r.store, r.notifs⟩
      else ⟨200, "Processed with warnings", r.store, r.notifs⟩

/-! ### Helper lemmas about the store and the update functions -/

theorem mem_storeUpdate_of_ne {store : Store} {id : String}
    (f : Transaction → Transaction) {t : Transaction}
    (ht : t ∈ store) (hne : t.id ≠ id) : t ∈ storeUpdate store id f := by
  have h := List.mem_map_of_mem (fun u => if u.id = id then f u else u) ht
  simpa [storeUpdate, hne] using h

theorem getById_storeUpdate (store : Store) (id : String)
    (f : Transaction → Transaction) (hf : ∀ t, (f t).id = t.id) :
    getById (storeUpdate store id f) id = (getById store id).map f := by
  induction store with
  | nil => rfl
  | cons t ts ih =>
    by_cases h : t.id = id
    · simp [getById, storeUpdate, List.find?_cons, h, hf t]
    · simpa [getById, storeUpdate, List.find?_cons, h, hf t] using ih

theorem applyUpdateFields_id (d : UpdateData) (t : Transaction) :
    (applyUpdateFields d t).id = t.id := by
  unfold applyUpdateFields
  cases d.amount <;> cases d.confirmations <;> rfl

theorem applyUpdateFields_user (d : UpdateData) (t : Transaction) :
    (applyUpdateFields d t).userTelegramId = t.userTelegramId := by
  unfold applyUpdateFields
  cases d.amount <;> cases d.confirmations <;> rfl

theorem applyUpdateFields_paymentId (d : UpdateData) (t : Transaction) :
    (applyUpdateFields d t).paymentId = t.paymentId := by
  unfold applyUpdateFields
  cases d.amount <;> cases d.confirmations <;> rfl

theorem applyUpdateFields_status (d : UpdateData) (t : Transaction) :
    (applyUpdateFields d t).status = d.status := by
  unfold applyUpdateFields
  cases d.amount <;> cases d.confirmations <;> rfl

theorem applyUpdateFields_confirmations (d : UpdateData) (t : Transaction) :
    (applyUpdateFields d t).confirmations = d.confirmations.getD t.confirmations := by
  unfold applyUpdateFields
  cases d.amount <;> cases d.confirmations <;> rfl

theorem applyUpdateFields_idem (d : UpdateData) (t : Transaction) :
    applyUpdateFields d (applyUpdateFields d t) = applyUpdateFields d t := by
  unfold applyUpdateFields
  cases d.amount <;> cases d.confirmations <;> rfl

theorem updateStatusApply_id (now : Nat) (d : UpdateData) (t : Transaction) :
    (updateStatusApply now d t).id = t.id := by
  unfold updateStatusApply
  split <;> simp [applyUpdateFields_id]

theorem updateStatusApply_user (now : Nat) (d : UpdateData) (t : Transaction) :
    (updateStatusApply now d t).userTelegramId = t.userTelegramId := by
  unfold updateStatusApply
  split <;> simp [applyUpdateFields_user]

theorem updateStatusApply_paymentId (now : Nat) (d : UpdateData) (t : Transaction) :
    (updateStatusApply now d t).paymentId = t.paymentId := by
  unfold updateStatusApply
  split <;> simp [applyUpdateFields_paymentId]

theorem updateStatusApply_status (now : Nat) (d : UpdateData) (t : Transaction) :
    (updateStatusApply now d t).status = d.status := by
  unfold updateStatusApply
  split <;> simp [applyUpdateFields_status]

theorem updateStatusApply_confirmations (now : Nat) (d : UpdateData) (t : Transaction) :
    (updateStatusApply now d t).confirmations = d.confirmations.getD t.confirmations := by
  unfold updateStatusApply
  split <;> simp [applyUpdateFields_confirmations]

theorem applyUpdateFields_requiredConfirmations (d : UpdateData) (t : Transaction) :
    (applyUpdateFields d t).requiredConfirmations = t.requiredConfirmations := by
  unfold applyUpdateFields
  cases d.amount <;> cases d.confirmations <;> rfl

theorem updateStatusApply_requiredConfirmations (now : Nat) (d : UpdateData)
    (t : Transaction) :
    (updateStatusApply now d t).requiredConfirmations = t.requiredConfirmations := by
  unfold updateStatusApply
  split <;> simp [applyUpdateFields_requiredConfirmations]

theorem buildIPNUpdateData_status (payload : IPNPayload) (t : Transaction)
    (newStatus : TransactionStatus) :
    (buildIPNUpdateData payload t newStatus).status = newStatus := rfl

theorem buildIPNUpdateData_congr (payload : IPNPayload) (t u : Transaction)
    (newStatus : TransactionStatus)
    (h : u.requiredConfirmations = t.requiredConfirmations) :
    buildIPNUpdateData payload u newStatus = buildIPNUpdateData payload t newStatus := by
  unfold buildIPNUpdateData
  rw [h]

theorem updateStatusApply_idem (now : Nat) (d : UpdateData) (t : Transaction) :
    updateStatusApply now d (updateStatusApply now d t) = updateStatusApply now d t := by
  unfold updateStatusApply applyUpdateFields
  cases d.amount <;> cases d.confirmations <;> split_ifs <;> rfl

theorem handleStatusNotification_congr (t u : Transaction)
    (status : TransactionStatus) (payload : IPNPayload)
    (hid : u.id = t.id) (huser : u.userTelegramId = t.userTelegramId) :
    handleStatusNotification u status payload =
      handleStatusNotification t status payload := by
  unfold handleStatusNotification
  rw [hid, huser]

theorem storeUpdate_storeUpdate (store : Store) (id : String)
    (f g : Transaction → Transaction) (hf : ∀ t, (f t).id = t.id) :
    storeUpdate (storeUpdate store id f) id g =
      storeUpdate store id (fun t => g (f t)) := by
  unfold storeUpdate
  rw [List.map_map]
  apply List.map_congr_left
  intro t _
  by_cases h : t.id = id
  · simp [Function.comp, h, hf t]
  · simp [Function.comp, h]

theorem storeUpdate_congr (store : Store) (id : String)
    (f g : Transaction → Transaction) (h : ∀ t, f t = g t) :
    storeUpdate store id f = storeUpdate store id g := by
  unfold storeUpdate
  apply List.map_congr_left
  intro t _
  by_cases hid : t.id = id <;> simp [hid, h t]

/-! ### Sample data for witnesses and counterexamples -/

/-- A fixed stand-in for the external HMAC-SHA256 hex digest primitive,
used only to build closed concrete scenarios. -/
def hmacFixed : String → String → String := fun _ _ => "d1g3st"

/-- A sample pending transaction. -/
def sampleTx : Transaction :=
  { id := "t1", status := PENDING, confirmations := 0,
    requiredConfirmations := 3, amount := 100, paymentId := some "555",
    txHash := none, fromAddress := none, completedAt := none,
    userTelegramId := "user1", cryptocurrency := "BTC" }

/-- A sample IPN payload reporting `confirming` for `sampleTx`. -/
def samplePayload : IPNPayload :=
  { payment_id := 555, payment_status := "confirming", pay_address := "addr",
    price_amount := 50, price_currency := "usd", pay_amount := 1,
    actually_paid := none, pay_currency := "btc", order_id := "t1",
    order_description := "order", purchase_id := 9, created_at := "c",
    updated_at := "u", outcome_amount := none, outcome_currency := none }

/-! ### Reduction lemmas for the two reconciliation paths -/

/-- When the signature gate passes, the order id is truthy, the transaction
is found and the raw status maps, `processIPN` applies the update and sends
the status notifications. -/
theorem processIPN_applied (hmacHex : String → String → String)
    (ipnSecret : String) (now : Nat) (store : Store) (payload : IPNPayload)
    (signature : Option String) (txn : Transaction) (newStatus : TransactionStatus)
    (hsig : sigPass hmacHex ipnSecret payload signature = true)
    (hoid : payload.order_id ≠ "")
    (hget : getById store payload.order_id = some txn)
    (hmap : STATUS_MAP payload.payment_status = some newStatus) :
    processIPN hmacHex ipnSecret now store payload signature =
      ⟨true,
       storeUpdate store payload.order_id
         (updateStatusApply now (buildIPNUpdateData payload txn newStatus)),
       handleStatusNotification txn newStatus payload⟩ := by
  unfold processIPN
  simp [hsig, hoid, hget, hmap]

/-- When the mapped poll status differs from the snapshot status,
`checkTransaction` applies the update and sends the poll notifications. -/
theorem checkTransaction_applied (payments : String → Option PaymentStatus)
    (store : Store) (tx : Transaction) (pid : String) (payment : PaymentStatus)
    (newStatus : TransactionStatus)
    (hpid : tx.paymentId = some pid) (hpid2 : pid ≠ "")
    (hpay : payments pid = some payment)
    (hmap : statusMap payment.payment_status = some newStatus)
    (hne : ¬ newStatus = tx.status) :
    checkTransaction payments store tx =
      (storeUpdate store tx.id (applyUpdateFields (buildPollUpdateData payment tx newStatus)),
       if newStatus = CONFIRMED then
         [Notif.userDepositConfirmedPoll tx.userTelegramId tx.id,
          Notif.adminConfirmedDepositPoll tx.id]
       else if newStatus = CONFIRMING ∧ tx.status = PENDING then
         [Notif.userDepositDetectedPoll tx.userTelegramId payment.pay_amount
            tx.cryptocurrency]
       else []) := by
  unfold checkTransaction
  rw [hpid]
  simp [hpid2, hpay, hmap, hne]

/-- When the mapped poll status equals the snapshot status,
`checkTransaction` is a no-op that sends nothing. -/
theorem checkTransaction_noop (payments : String → Option PaymentStatus)
    (store : Store) (tx : Transaction) (pid : String) (payment : PaymentStatus)
    (hpid : tx.paymentId = some pid)
    (hpay : payments pid = some payment)
    (hmap : statusMap payment.payment_status = some tx.status) :
    checkTransaction payments store tx = (store, []) := by
  unfold checkTransaction
  rw [hpid]
  by_cases h : pid = ""
  · simp [h]
  · simp [h, hpay, hmap]

/-- Payload variant with an unmapped raw status. -/
def payloadUnknownStatus : IPNPayload := { samplePayload with payment_status := "zzz" }

/-- A transaction already in the `CONFIRMED` state. -/
def txConfirmed : Transaction :=
  { sampleTx with id := "t2", status := CONFIRMED, confirmations := 3 }

/-- A transaction already in the terminal `COMPLETED` state. -/
def txCompleted : Transaction :=
  { sampleTx with id := "t3", status := COMPLETED, completedAt := some 5 }

/-- Payload reporting `waiting` (mapped to `PENDING`) for `txConfirmed`. -/
def payloadWaitingT2 : IPNPayload :=
  { samplePayload with order_id := "t2", payment_status := "waiting" }

/-- Payload reporting `refunded` for the completed transaction `txCompleted`. -/
def payloadRefundedT3 : IPNPayload :=
  { samplePayload with order_id := "t3", payment_status := "refunded" }

/-- Payload whose gateway payment id (777) differs from the one stored on
`sampleTx` (`"555"`). -/
def payloadMismatchPid : IPNPayload := { samplePayload with payment_id := 777 }

/-- Payload variant whose order id matches no stored transaction. -/
def payloadUnknownOrder : IPNPayload := { samplePayload with order_id := "t9" }

/-- Payload variant reporting raw status `confirmed`. -/
def payloadConfirmed : IPNPayload := { samplePayload with payment_status := "confirmed" }

/-! ### Claim theorems -/

/-- C6: the status mapper is a pure function with exactly the nine-edge
graph waiting→PENDING, confirming→CONFIRMING, confirmed→CONFIRMED,
sending→PROCESSING, partially_paid→CONFIRMING, finished→COMPLETED,
failed→FAILED, refunded→REFUNDED, expired→CANCELLED (identical tables on
the webhook and polling paths); every raw status outside this set is
unmapped, and an event carrying one is rejected with no transaction update
on either path. -/
theorem c6_status_mapper_graph :
    (STATUS_MAP "waiting" = some PENDING ∧
     STATUS_MAP "confirming" = some CONFIRMING ∧
     STATUS_MAP "confirmed" = some CONFIRMED ∧
     STATUS_MAP "sending" = some PROCESSING ∧
     STATUS_MAP "partially_paid" = some CONFIRMING ∧
     STATUS_MAP "finished" = some COMPLETED ∧
     STATUS_MAP "failed" = some FAILED ∧
     STATUS_MAP "refunded" = some REFUNDED ∧
     STATUS_MAP "expired" = some CANCELLED) ∧
    (∀ s : String, statusMap s = STATUS_MAP s) ∧
    (∀ s : String,
      s ∉ (["waiting", "confirming", "confirmed", "sending", "partially_paid",
            "finished", "failed", "refunded", "expired"] : List String) →
      STATUS_MAP s = none) ∧
    (∀ (hmacHex : String → String → String) (ipnSecret : String) (now : Nat)
       (store : Store) (payload : IPNPayload) (signature : Option String),
      STATUS_MAP payload.payment_status = none →
      processIPN hmacHex ipnSecret now store payload signature = ⟨false, store, []⟩) ∧
    (∀ (payments : String → Option PaymentStatus) (store : Store)
       (tx : Transaction) (pid : String) (payment : PaymentStatus),
      tx.paymentId = some pid → payments pid = some payment →
      statusMap payment.payment_status = none →
      checkTransaction payments store tx = (store, [])) := by
  refine ⟨⟨rfl, rfl, rfl, rfl, rfl, rfl, rfl, rfl, rfl⟩, ?_, ?_, ?_, ?_⟩
  · intro s; rfl
  · intro s hs
    simp only [List.mem_cons, List.not_mem_nil, or_false, not_or] at hs
    obtain ⟨h1, h2, h3, h4, h5, h6, h7, h8, h9⟩ := hs
    simp [STATUS_MAP, h1, h2, h3, h4, h5, h6, h7, h8, h9]
  · intro hmacHex ipnSecret now store payload signature hmap
    unfold processIPN
    split
    · split
      · rfl
      · cases hget : getById store payload.order_id with
        | none => rfl
        | some txn => simp [hmap]
    · rfl
  · intro payments store tx pid payment hpid hpay hmap
    unfold checkTransaction
    rw [hpid]
    by_cases h : pid = ""
    · simp [h]
    · simp [h, hpay, hmap]

/-- Witness for C6 at the concrete unmapped raw status `zzz`. -/
theorem c6_status_mapper_graph_witness :
    ("zzz" : String) ∉
      (["waiting", "confirming", "confirmed", "sending", "partially_paid",
        "finished", "failed", "refunded", "expired"] : List String) ∧
    STATUS_MAP "zzz" = none ∧
    processIPN hmacFixed "secret" 0 [sampleTx] payloadUnknownStatus none =
      ⟨false, [sampleTx], []⟩ ∧
    checkTransaction (fun _ => some ⟨"zzz", 1, none⟩) [sampleTx] sampleTx =
      ([sampleTx], []) := by
  refine ⟨by decide, c6_status_mapper_graph.2.2.1 "zzz" (by decide),
          c6_status_mapper_graph.2.2.2.1 hmacFixed "secret" 0 [sampleTx]
            payloadUnknownStatus none (by decide),
          c6_status_mapper_graph.2.2.2.2 (fun _ => some ⟨"zzz", 1, none⟩)
            [sampleTx] sampleTx "555" ⟨"zzz", 1, none⟩ rfl rfl (by decide)⟩

/-- C10: an IPN payload whose `order_id` is missing (JS-falsy) or does not
identify a stored transaction is rejected: `processIPN` returns `false`,
no transaction record is created or modified, and no notification is
sent. -/
theorem c10_missing_order_rejected (hmacHex : String → String → String)
    (ipnSecret : String) (now : Nat) (store : Store) (payload : IPNPayload)
    (signature : Option String)
    (h : payload.order_id = "" ∨ getById store payload.order_id = none) :
    processIPN hmacHex ipnSecret now store payload signature = ⟨false, store, []⟩ := by
  unfold processIPN
  split
  · rcases h with h | h
    · simp [h]
    · split
      · rfl
      · rw [h]
  · rfl

/-- Witness for C10 at a concrete payload whose order id is not in the
store. -/
theorem c10_missing_order_rejected_witness :
    getById [sampleTx] payloadUnknownOrder.order_id = none ∧
    processIPN hmacFixed "" 0 [sampleTx] payloadUnknownOrder none =
      ⟨false, [sampleTx], []⟩ := by
  exact ⟨by decide,
         c10_missing_order_rejected hmacFixed "" 0 [sampleTx] payloadUnknownOrder
           none (Or.inr (by decide))⟩

/-- C7: on every applied status event whose raw status is `confirmed` the
stored confirmation count becomes `requiredConfirmations`, and on every
applied event whose raw status is `confirming` it becomes
`max 1 (requiredConfirmations / 2)` — on the webhook path and on the
polling path alike. -/
theorem c7_confirmation_heuristic
    (hmacHex : String → String → String) (ipnSecret : String) (now : Nat)
    (store : Store) (payload : IPNPayload) (signature : Option String)
    (txn : Transaction)
    (hsig : sigPass hmacHex ipnSecret payload signature = true)
    (hoid : payload.order_id ≠ "")
    (hget : getById store payload.order_id = some txn) :
    ((payload.payment_status = "confirmed" →
       Option.map Transaction.confirmations
         (getById (processIPN hmacHex ipnSecret now store payload signature).store
           payload.order_id) = some txn.requiredConfirmations) ∧
     (payload.payment_status = "confirming" →
       Option.map Transaction.confirmations
         (getById (processIPN hmacHex ipnSecret now store payload signature).store
           payload.order_id) = some (max 1 (txn.requiredConfirmations / 2)))) ∧
    (∀ (payments : String → Option PaymentStatus) (store2 : Store)
       (tx : Transaction) (pid : String) (payment : PaymentStatus)
       (newStatus : TransactionStatus),
      tx.paymentId = some pid → pid ≠ "" → payments pid = some payment →
      statusMap payment.payment_status = some newStatus →
      ¬ newStatus = tx.status →
      ((payment.payment_status = "confirmed" →
         Option.map Transaction.confirmations
           (getById (checkTransaction payments store2 tx).1 tx.id) =
           Option.map (fun _ => tx.requiredConfirmations) (getById store2 tx.id)) ∧
       (payment.payment_status = "confirming" →
         Option.map Transaction.confirmations
           (getById (checkTransaction payments store2 tx).1 tx.id) =
           Option.map (fun _ => max 1 (tx.requiredConfirmations / 2))
             (getById store2 tx.id)))) := by
  constructor
  · constructor
    · intro hconf
      have hmap : STATUS_MAP payload.payment_status = some CONFIRMED := by
        rw [hconf]; rfl
      rw [processIPN_applied hmacHex ipnSecret now store payload signature txn
            CONFIRMED hsig hoid hget hmap]
      rw [getById_storeUpdate store payload.order_id _
            (fun t => updateStatusApply_id now _ t)]
      rw [hget]
      simp [updateStatusApply_confirmations, buildIPNUpdateData, hconf]
    · intro hconf
      have hmap : STATUS_MAP payload.payment_status = some CONFIRMING := by
        rw [hconf]; rfl
      rw [processIPN_applied hmacHex ipnSecret now store payload signature txn
            CONFIRMING hsig hoid hget hmap]
      rw [getById_storeUpdate store payload.order_id _
            (fun t => updateStatusApply_id now _ t)]
      rw [hget]
      simp [updateStatusApply_confirmations, buildIPNUpdateData, hconf]
  · intro payments store2 tx pid payment newStatus hpid hpid2 hpay hmap hne
    rw [checkTransaction_applied payments store2 tx pid payment newStatus
          hpid hpid2 hpay hmap hne]
    constructor
    · intro hconf
      rw [getById_storeUpdate store2 tx.id _ (fun t => applyUpdateFields_id _ t)]
      cases hget2 : getById store2 tx.id with
      | none => rfl
      | some u =>
        simp [applyUpdateFields_confirmations, buildPollUpdateData, hconf]
    · intro hconf
      rw [getById_storeUpdate store2 tx.id _ (fun t => applyUpdateFields_id _ t)]
      cases hget2 : getById store2 tx.id with
      | none => rfl
      | some u =>
        simp [applyUpdateFields_confirmations, buildPollUpdateData, hconf]

/-- Witness for C7: a concrete `confirmed` webhook event on `sampleTx`
(with `requiredConfirmations = 3`) stores `confirmations = 3`, and a
concrete `confirming` poll event stores `max 1 (3 / 2) = 1`. -/
theorem c7_confirmation_heuristic_witness :
    sigPass hmacFixed "" payloadConfirmed none = true ∧
    getById [sampleTx] payloadConfirmed.order_id = some sampleTx ∧
    Option.map Transaction.confirmations
      (getById (processIPN hmacFixed "" 7 [sampleTx] payloadConfirmed none).store
        payloadConfirmed.order_id) = some 3 ∧
    Option.map Transaction.confirmations
      (getById (checkTransaction (fun _ => some ⟨"confirming", 1, none⟩)
        [sampleTx] sampleTx).1 sampleTx.id) = some 1 := by
  refine ⟨by decide, by decide, ?_, ?_⟩
  · exact (c7_confirmation_heuristic hmacFixed "" 7 [sampleTx] payloadConfirmed
      none sampleTx (by decide) (by decide) (by decide)).1.1 rfl
  · exact ((c7_confirmation_heuristic hmacFixed "" 7 [sampleTx] payloadConfirmed
      none sampleTx (by decide) (by decide) (by decide)).2
      (fun _ => some ⟨"confirming", 1, none⟩) [sampleTx] sampleTx "555"
      ⟨"confirming", 1, none⟩ CONFIRMING rfl (by decide) rfl rfl
      (by decide)).2 rfl

/-- C1 counterexample: a `waiting` (= Pending) webhook event arriving while
the transaction is already `CONFIRMED` is not rejected as a no-op — it is
applied, moving the stored state backward from `CONFIRMED` to `PENDING`. -/
theorem c1_backward_transition_counterexample :
    txConfirmed.status = CONFIRMED ∧
    STATUS_MAP payloadWaitingT2.payment_status = some PENDING ∧
    (processIPN hmacFixed "" 0 [txConfirmed] payloadWaitingT2 none).ok = true ∧
    Option.map Transaction.status
      (getById (processIPN hmacFixed "" 0 [txConfirmed] payloadWaitingT2 none).store
        "t2") = some PENDING := by decide

/-- C1 amended: the webhook path has no forward-only admission test — any
event whose raw status maps overwrites the stored state with the mapped
state unconditionally, so an event mapping to an earlier state (such as
`waiting`/Pending on a `Confirmed` transaction) moves the state backward;
only the polling path rejects an event as a no-op, and only when the
mapped state equals the currently stored state. -/
theorem c1_unconditional_overwrite
    (hmacHex : String → String → String) (ipnSecret : String) (now : Nat)
    (store : Store) (payload : IPNPayload) (signature : Option String)
    (txn : Transaction) (newStatus : TransactionStatus)
    (hsig : sigPass hmacHex ipnSecret payload signature = true)
    (hoid : payload.order_id ≠ "")
    (hget : getById store payload.order_id = some txn)
    (hmap : STATUS_MAP payload.payment_status = some newStatus) :
    ((processIPN hmacHex ipnSecret now store payload signature).ok = true ∧
     Option.map Transaction.status
       (getById (processIPN hmacHex ipnSecret now store payload signature).store
         payload.order_id) = some newStatus) ∧
    (∀ (payments : String → Option PaymentStatus) (store2 : Store)
       (tx : Transaction) (pid : String) (payment : PaymentStatus),
      tx.paymentId = some pid → payments pid = some payment →
      statusMap payment.payment_status = some tx.status →
      checkTransaction payments store2 tx = (store2, [])) := by
  constructor
  · rw [processIPN_applied hmacHex ipnSecret now store payload signature txn
          newStatus hsig hoid hget hmap]
    refine ⟨rfl, ?_⟩
    rw [getById_storeUpdate store payload.order_id _
          (fun t => updateStatusApply_id now _ t), hget]
    simp [updateStatusApply_status, buildIPNUpdateData_status]
  · intro payments store2 tx pid payment hpid hpay hmap2
    exact checkTransaction_noop payments store2 tx pid payment hpid hpay hmap2

/-- Witness for the amended C1: the concrete backward overwrite on
`txConfirmed`, and the concrete poll no-op of a `waiting` report on a
still-`PENDING` transaction. -/
theorem c1_unconditional_overwrite_witness :
    (Option.map Transaction.status
      (getById (processIPN hmacFixed "" 0 [txConfirmed] payloadWaitingT2 none).store
        payloadWaitingT2.order_id) = some PENDING) ∧
    checkTransaction (fun _ => some ⟨"waiting", 1, none⟩) [sampleTx] sampleTx =
      ([sampleTx], []) := by
  refine ⟨(c1_unconditional_overwrite hmacFixed "" 0 [txConfirmed] payloadWaitingT2
      none txConfirmed PENDING (by decide) (by decide) (by decide) (by decide)).1.2,
    (c1_unconditional_overwrite hmacFixed "" 0 [txConfirmed] payloadWaitingT2
      none txConfirmed PENDING (by decide) (by decide) (by decide) (by decide)).2
      (fun _ => some ⟨"waiting", 1, none⟩) [sampleTx] sampleTx "555"
      ⟨"waiting", 1, none⟩ rfl rfl (by decide)⟩

/-- C3 counterexample: with a non-empty IPN secret configured and no
signature header on the request, processing does not fail closed — the
payload is accepted and the transaction is updated. -/
theorem c3_fail_closed_counterexample :
    ("topsecret" : String) ≠ "" ∧
    (processIPN hmacFixed "topsecret" 0 [sampleTx] samplePayload none).ok = true ∧
    Option.map Transaction.status
      (getById (processIPN hmacFixed "topsecret" 0 [sampleTx] samplePayload none).store
        "t1") = some CONFIRMING := by decide

/-- C3 amended: when the request carries no signature header, verification
is skipped regardless of whether a secret is configured (fail-open:
processing proceeds exactly as it would with no secret); when a non-empty
signature header is present, an invalid signature is rejected with no
update and no notification; when no secret is configured,
`verifySignature` accepts anything (explicit degraded mode, no crash). -/
theorem c3_signature_gate :
    (∀ (hmacHex : String → String → String) (ipnSecret : String) (now : Nat)
       (store : Store) (payload : IPNPayload),
      processIPN hmacHex ipnSecret now store payload none =
        processIPN hmacHex "" now store payload none) ∧
    (∀ (hmacHex : String → String → String) (ipnSecret : String) (now : Nat)
       (store : Store) (payload : IPNPayload) (sig : String),
      sig ≠ "" → verifySignature hmacHex ipnSecret payload sig = false →
      processIPN hmacHex ipnSecret now store payload (some sig) =
        ⟨false, store, []⟩) ∧
    (∀ (hmacHex : String → String → String) (payload : IPNPayload) (sig : String),
      verifySignature hmacHex "" payload sig = true) := by
  refine ⟨?_, ?_, ?_⟩
  · intro hmacHex ipnSecret now store payload
    rfl
  · intro hmacHex ipnSecret now store payload sig hne hver
    unfold processIPN
    simp [sigPass, hne, hver]
  · intro hmacHex payload sig
    rfl

/-- Witness for the amended C3 at concrete inputs: missing header with a
configured secret behaves as with no secret; a concrete bad signature is
rejected with the store untouched; the empty secret accepts a concrete
signature. -/
theorem c3_signature_gate_witness :
    processIPN hmacFixed "topsecret" 0 [sampleTx] samplePayload none =
      processIPN hmacFixed "" 0 [sampleTx] samplePayload none ∧
    ("badsig" : String) ≠ "" ∧
    verifySignature hmacFixed "topsecret" samplePayload "badsig" = false ∧
    processIPN hmacFixed "topsecret" 0 [sampleTx] samplePayload (some "badsig") =
      ⟨false, [sampleTx], []⟩ ∧
    verifySignature hmacFixed "" samplePayload "anything" = true := by
  exact ⟨c3_signature_gate.1 hmacFixed "topsecret" 0 [sampleTx] samplePayload,
         by decide, by decide,
         c3_signature_gate.2.1 hmacFixed "topsecret" 0 [sampleTx] samplePayload
           "badsig" (by decide) (by decide),
         c3_signature_gate.2.2 hmacFixed samplePayload "anything"⟩

/-- C4 counterexample: `sampleTx` already carries gateway payment id
`"555"`, yet an event carrying the different payment id 777 is not
rejected — it is processed, the state changes and a notification is
sent. -/
theorem c4_mismatched_payment_id_counterexample :
    sampleTx.paymentId = some "555" ∧
    payloadMismatchPid.payment_id = 777 ∧
    (processIPN hmacFixed "" 0 [sampleTx] payloadMismatchPid none).ok = true ∧
    Option.map Transaction.status
      (getById (processIPN hmacFixed "" 0 [sampleTx] payloadMismatchPid none).store
        "t1") = some CONFIRMING ∧
    (processIPN hmacFixed "" 0 [sampleTx] payloadMismatchPid none).notifs ≠ [] := by
  decide

/-- C4 amended: `processIPN` performs no gateway-payment-id consistency
check at all — the event is matched solely by `order_id` and applied
whatever its `payment_id` is (the update is accepted and the state
changes); the stored `paymentId` field itself is left unchanged by the
update. -/
theorem c4_no_payment_id_check
    (hmacHex : String → String → String) (ipnSecret : String) (now : Nat)
    (store : Store) (payload : IPNPayload) (signature : Option String)
    (txn : Transaction) (newStatus : TransactionStatus)
    (hsig : sigPass hmacHex ipnSecret payload signature = true)
    (hoid : payload.order_id ≠ "")
    (hget : getById store payload.order_id = some txn)
    (hmap : STATUS_MAP payload.payment_status = some newStatus) :
    (processIPN hmacHex ipnSecret now store payload signature).ok = true ∧
    Option.map Transaction.paymentId
      (getById (processIPN hmacHex ipnSecret now store payload signature).store
        payload.order_id) = some txn.paymentId ∧
    Option.map Transaction.status
      (getById (processIPN hmacHex ipnSecret now store payload signature).store
        payload.order_id) = some newStatus := by
  rw [processIPN_applied hmacHex ipnSecret now store payload signature txn
        newStatus hsig hoid hget hmap]
  refine ⟨rfl, ?_, ?_⟩ <;>
    rw [getById_storeUpdate store payload.order_id _
          (fun t => updateStatusApply_id now _ t), hget] <;>
    simp [updateStatusApply_paymentId, updateStatusApply_status, buildIPNUpdateData_status]

/-- Witness for the amended C4 at the concrete mismatched input: the event
with payment id 777 is applied to the transaction storing `"555"`, which
keeps its original `paymentId`. -/
theorem c4_no_payment_id_check_witness :
    (processIPN hmacFixed "" 0 [sampleTx] payloadMismatchPid none).ok = true ∧
    Option.map Transaction.paymentId
      (getById (processIPN hmacFixed "" 0 [sampleTx] payloadMismatchPid none).store
        payloadMismatchPid.order_id) = some (some "555") := by
  have h := c4_no_payment_id_check hmacFixed "" 0 [sampleTx] payloadMismatchPid
    none sampleTx CONFIRMING (by decide) (by decide) (by decide) (by decide)
  exact ⟨h.1, h.2.1⟩

/-- C2 counterexample: re-delivering the same `confirming` webhook event a
second time succeeds again and re-sends the same (non-empty) notification
batch, instead of exactly one batch from the first application. -/
theorem c2_duplicate_notification_counterexample :
    (processIPN hmacFixed "" 0 [sampleTx] samplePayload none).ok = true ∧
    (processIPN hmacFixed "" 0 [sampleTx] samplePayload none).notifs =
      [Notif.userConfirming "user1" 1 "btc"] ∧
    (processIPN hmacFixed "" 0
        (processIPN hmacFixed "" 0 [sampleTx] samplePayload none).store
        samplePayload none).ok = true ∧
    (processIPN hmacFixed "" 0
        (processIPN hmacFixed "" 0 [sampleTx] samplePayload none).store
        samplePayload none).notifs = [Notif.userConfirming "user1" 1 "btc"] := by
  decide

/-- C2 amended: applying the same status event N times does yield the same
final transaction state (the duplicate application leaves the store
exactly as after the first), but on the webhook path every successful
duplicate application re-emits the same notification batch (so N
applications produce N identical batches, not one); only on the polling
path is a duplicate a no-op that sends nothing. -/
theorem c2_replay_behavior
    (hmacHex : String → String → String) (ipnSecret : String) (now : Nat)
    (store : Store) (payload : IPNPayload) (signature : Option String)
    (txn : Transaction) (newStatus : TransactionStatus)
    (hsig : sigPass hmacHex ipnSecret payload signature = true)
    (hoid : payload.order_id ≠ "")
    (hget : getById store payload.order_id = some txn)
    (hmap : STATUS_MAP payload.payment_status = some newStatus) :
    ((processIPN hmacHex ipnSecret now
        (processIPN hmacHex ipnSecret now store payload signature).store
        payload signature).store =
      (processIPN hmacHex ipnSecret now store payload signature).store ∧
     (processIPN hmacHex ipnSecret now
        (processIPN hmacHex ipnSecret now store payload signature).store
        payload signature).ok = true ∧
     (processIPN hmacHex ipnSecret now
        (processIPN hmacHex ipnSecret now store payload signature).store
        payload signature).notifs =
      (processIPN hmacHex ipnSecret now store payload signature).notifs) ∧
    (∀ (payments : String → Option PaymentStatus) (store2 : Store)
       (tx : Transaction) (pid : String) (payment : PaymentStatus),
      tx.paymentId = some pid → payments pid = some payment →
      statusMap payment.payment_status = some tx.status →
      checkTransaction payments store2 tx = (store2, [])) := by
  have h1 := processIPN_applied hmacHex ipnSecret now store payload signature txn
    newStatus hsig hoid hget hmap
  have hget2 : getById
      (storeUpdate store payload.order_id
        (updateStatusApply now (buildIPNUpdateData payload txn newStatus)))
      payload.order_id =
      some (updateStatusApply now (buildIPNUpdateData payload txn newStatus) txn) := by
    rw [getById_storeUpdate store payload.order_id _
          (fun t => updateStatusApply_id now _ t), hget]
    rfl
  have h2 := processIPN_applied hmacHex ipnSecret now
    (storeUpdate store payload.order_id
      (updateStatusApply now (buildIPNUpdateData payload txn newStatus)))
    payload signature
    (updateStatusApply now (buildIPNUpdateData payload txn newStatus) txn)
    newStatus hsig hoid hget2 hmap
  rw [buildIPNUpdateData_congr payload txn _ newStatus
        (updateStatusApply_requiredConfirmations now _ txn)] at h2
  have e1 : (processIPN hmacHex ipnSecret now store payload signature).store =
      storeUpdate store payload.order_id
        (updateStatusApply now (buildIPNUpdateData payload txn newStatus)) := by
    rw [h1]
  refine ⟨⟨?_, ?_, ?_⟩, ?_⟩
  · simp only [e1, h2, h1]
    rw [storeUpdate_storeUpdate store payload.order_id _ _
          (fun t => updateStatusApply_id now _ t)]
    exact storeUpdate_congr store payload.order_id _ _
      (fun t => updateStatusApply_idem now _ t)
  · simp only [e1, h2]
  · simp only [e1, h2, h1]
    exact handleStatusNotification_congr txn _ newStatus payload
      (updateStatusApply_id now _ txn) (updateStatusApply_user now _ txn)
  · intro payments store2 tx pid payment hpid hpay hmap2
    exact checkTransaction_noop payments store2 tx pid payment hpid hpay hmap2

/-- Witness for the amended C2 at the concrete duplicate delivery of the
`confirming` event to `sampleTx`. -/
theorem c2_replay_behavior_witness :
    (processIPN hmacFixed "" 0
        (processIPN hmacFixed "" 0 [sampleTx] samplePayload none).store
        samplePayload none).store =
      (processIPN hmacFixed "" 0 [sampleTx] samplePayload none).store ∧
    checkTransaction (fun _ => some ⟨"waiting", 2, none⟩) [sampleTx] sampleTx =
      ([sampleTx], []) := by
  have h := c2_replay_behavior hmacFixed "" 0 [sampleTx] samplePayload none
    sampleTx CONFIRMING (by decide) (by decide) (by decide) (by decide)
  exact ⟨h.1.1, h.2 (fun _ => some ⟨"waiting", 2, none⟩) [sampleTx] sampleTx
    "555" ⟨"waiting", 2, none⟩ rfl rfl (by decide)⟩

/-- Membership in the store is preserved by one poll `checkTransaction`
call for any record whose id differs from the checked snapshot's id. -/
theorem mem_checkTransaction_store (payments : String → Option PaymentStatus)
    {store : Store} (tx : Transaction) {t : Transaction}
    (ht : t ∈ store) (hne : t.id ≠ tx.id) :
    t ∈ (checkTransaction payments store tx).1 := by
  unfold checkTransaction
  cases htx : tx.paymentId with
  | none => simpa using ht
  | some pid =>
    by_cases h1 : pid = ""
    · simpa [h1] using ht
    · cases hpay : payments pid with
      | none => simpa [h1, hpay] using ht
      | some payment =>
        cases hmap : statusMap payment.payment_status with
        | none => simpa [h1, hpay, hmap] using ht
        | some ns =>
          by_cases h2 : ns = tx.status
          · simpa [h1, hpay, hmap, h2] using ht
          · have hmem := mem_storeUpdate_of_ne
              (applyUpdateFields (buildPollUpdateData payment tx ns)) ht hne
            simpa [h1, hpay, hmap, h2] using hmem

/-- Membership is preserved by the polling fold for any record whose id is
hit by none of the folded snapshots. -/
theorem pollFold_mem (payments : String → Option PaymentStatus) (t : Transaction) :
    ∀ (txs : List Transaction) (acc : Store × List Notif),
      (∀ tx ∈ txs, t.id ≠ tx.id) → t ∈ acc.1 →
      t ∈ (txs.foldl (pollStep payments) acc).1 := by
  intro txs
  induction txs with
  | nil => intro acc _ ht; simpa using ht
  | cons tx rest ih =>
    intro acc h ht
    rw [List.foldl_cons]
    exact ih (pollStep payments acc tx)
      (fun u hu => h u (List.mem_cons_of_mem _ hu))
      (mem_checkTransaction_store payments tx ht (h tx (List.mem_cons_self _ _)))

/-- C5 counterexample: a `refunded` webhook event delivered for a
transaction already in the terminal `COMPLETED` state is applied — the
state changes to `REFUNDED` and a notification is emitted. -/
theorem c5_terminal_mutated_counterexample :
    txCompleted.status = COMPLETED ∧
    (processIPN hmacFixed "" 9 [txCompleted] payloadRefundedT3 none).ok = true ∧
    Option.map Transaction.status
      (getById (processIPN hmacFixed "" 9 [txCompleted] payloadRefundedT3 none).store
        "t3") = some REFUNDED ∧
    (processIPN hmacFixed "" 9 [txCompleted] payloadRefundedT3 none).notifs ≠ [] := by
  decide

/-- C5 amended: the polling path never touches a transaction in a terminal
state — `checkDeposits` enumerates only `PENDING`/`CONFIRMING` records, so
a terminal record survives every polling tick unchanged; the webhook path,
by contrast, does apply mapped events to terminal transactions, changing
their state and emitting notifications. -/
theorem c5_poll_preserves_terminal
    (payments : String → Option PaymentStatus) (store : Store) (t : Transaction)
    (ht : t ∈ store)
    (huniq : ∀ u ∈ store, u.id = t.id → u = t)
    (hterm : t.status = COMPLETED ∨ t.status = CANCELLED ∨ t.status = FAILED ∨
      t.status = REFUNDED) :
    t ∈ (checkDeposits payments store).1 := by
  unfold checkDeposits
  apply pollFold_mem payments t _ (store, []) _ ht
  intro tx htx hid
  have hmem := List.mem_filter.mp htx
  have heq := huniq tx hmem.1 hid.symm
  rw [heq] at hmem
  rcases hterm with h | h | h | h <;> rw [h] at hmem <;>
    simpa using hmem.2

/-- Witness for the amended C5: the completed transaction `txCompleted`
survives a concrete polling tick untouched even though the gateway oracle
reports `waiting` for every payment id. -/
theorem c5_poll_preserves_terminal_witness :
    txCompleted ∈ (checkDeposits (fun _ => some ⟨"waiting", 1, none⟩)
      [sampleTx, txCompleted]).1 := by
  apply c5_poll_preserves_terminal
  · decide
  · decide
  · exact Or.inl rfl

/-- C8 counterexample: a reported confirmation count of 10 against
`requiredConfirmations = 3` is stored verbatim by `updateBlockchainData`,
not clamped to the interval `[0, requiredConfirmations]`. -/
theorem c8_no_clamp_counterexample :
    sampleTx.requiredConfirmations = 3 ∧
    Option.map Transaction.confirmations
      (getById (updateBlockchainData [sampleTx] "t1" "hash" "from" 10) "t1") =
      some 10 ∧
    3 < 10 := by decide

/-- C8 amended: every confirmation-count write stores the reported value
verbatim — `updateBlockchainData` writes the given count (and forces the
status to `CONFIRMING`) with no clamping, so a count above
`requiredConfirmations` is stored as-is. -/
theorem c8_confirmations_stored_verbatim (store : Store)
    (id txHash fromAddress : String) (confirmations : Nat) (txn : Transaction)
    (hget : getById store id = some txn) :
    getById (updateBlockchainData store id txHash fromAddress confirmations) id =
      some { txn with txHash := some txHash, fromAddress := some fromAddress,
                      confirmations := confirmations, status := CONFIRMING } := by
  unfold updateBlockchainData
  rw [getById_storeUpdate store id
        (fun t => { t with txHash := some txHash, fromAddress := some fromAddress,
                           confirmations := confirmations, status := CONFIRMING })
        (fun t => rfl), hget]
  rfl

/-- Witness for the amended C8 at the concrete over-threshold count 10. -/
theorem c8_confirmations_stored_verbatim_witness :
    getById [sampleTx] "t1" = some sampleTx ∧
    getById (updateBlockchainData [sampleTx] "t1" "hash" "from" 10) "t1" =
      some { sampleTx with txHash := some "hash", fromAddress := some "from",
                           confirmations := 10, status := CONFIRMING } := by
  exact ⟨by decide,
         c8_confirmations_stored_verbatim [sampleTx] "t1" "hash" "from" 10
           sampleTx (by decide)⟩

/-- C9 counterexample: a webhook request whose signature fails verification
is answered with HTTP 200, not a 4xx/403-equivalent status. -/
theorem c9_signature_failure_answered_200_counterexample :
    verifySignature hmacFixed "secret" samplePayload "badsig" = false ∧
    (handleWebhook true hmacFixed "secret" 0 [sampleTx] "POST"
      (ParseOutcome.ok samplePayload (some "badsig"))).statusCode = 200 := by
  decide

/-- C9 amended: the handler responds 200 for every `processIPN` outcome —
applied, no-op, malformed and signature-verification failure alike; 500
only when body parsing/handling throws; 403 when IPN is disabled; and 405
for a non-POST request. -/
theorem c9_response_codes (hmacHex : String → String → String)
    (ipnSecret : String) (now : Nat) (store : Store) (method : String)
    (parsed : ParseOutcome) (ipnEnabled : Bool) :
    (ipnEnabled = false →
      (handleWebhook ipnEnabled hmacHex ipnSecret now store method
        parsed).statusCode = 403) ∧
    (ipnEnabled = true → method ≠ "POST" →
      (handleWebhook ipnEnabled hmacHex ipnSecret now store method
        parsed).statusCode = 405) ∧
    (ipnEnabled = true → method = "POST" → parsed = ParseOutcome.err →
      (handleWebhook ipnEnabled hmacHex ipnSecret now store method
        parsed).statusCode = 500) ∧
    (∀ (payload : IPNPayload) (signature : Option String),
      ipnEnabled = true → method = "POST" →
      parsed = ParseOutcome.ok payload signature →
      (handleWebhook ipnEnabled hmacHex ipnSecret now store method
        parsed).statusCode = 200) := by
  refine ⟨?_, ?_, ?_, ?_⟩
  · intro h; subst h; rfl
  · intro h hm; subst h; simp [handleWebhook, hm]
  · intro h hm hp; subst h; subst hp; simp [handleWebhook, hm]
  · intro payload signature h hm hp
    subst h; subst hp
    simp [handleWebhook, hm, apply_ite]

/-- Witness for the amended C9: each of the four response classes at a
concrete request. -/
theorem c9_response_codes_witness :
    (handleWebhook false hmacFixed "" 0 [] "POST" ParseOutcome.err).statusCode =
      403 ∧
    (handleWebhook true hmacFixed "" 0 [] "GET" ParseOutcome.err).statusCode =
      405 ∧
    (handleWebhook true hmacFixed "" 0 [] "POST" ParseOutcome.err).statusCode =
      500 ∧
    (handleWebhook true hmacFixed "" 0 [sampleTx] "POST"
      (ParseOutcome.ok samplePayload none)).statusCode = 200 := by
  exact ⟨(c9_response_codes hmacFixed "" 0 [] "POST" ParseOutcome.err false).1 rfl,
         (c9_response_codes hmacFixed "" 0 [] "GET" ParseOutcome.err true).2.1
           rfl (by decide),
         (c9_response_codes hmacFixed "" 0 [] "POST" ParseOutcome.err true).2.2.1
           rfl rfl rfl,
         (c9_response_codes hmacFixed "" 0 [sampleTx] "POST"
           (ParseOutcome.ok samplePayload none) true).2.2.2 samplePayload none
           rfl rfl rfl⟩

end Cryptobot
